import Mathlib

/-!
Shallow embedding of `pycisTopic/pseudobulkPeakCalling.py` and verification of
its specification.

Modelling conventions:
* A fragment record (one row of the data frame returned by
  `pr.read_bed(path, as_df=True)`) is a `Fragment`.
* The cell metadata data frame is projected to the two columns the module
  reads: the index (barcode names) and the grouping column `variable`; it is
  represented as an association list of `(index name, variable value)` pairs,
  kept in row order.
* Python dictionaries are represented as association lists in insertion order
  (Python 3.7+ iteration order).
* File reading (`pr.read_bed`, `pd.read_csv`) is modelled by an explicit
  function from paths to contents passed as an argument; file writes performed
  by the ray workers are recorded in the outcome.
* Python runtime exceptions are values of `PyError`; a function that can raise
  returns `Except PyError _`.
-/

deriving instance DecidableEq for Except

namespace PycisTopic

/-- One fragment record: Chromosome, Start, End, Name (barcode) and Score
columns of the bed file loaded by `pr.read_bed`. -/
structure Fragment where
  chromosome : String
  start : Nat
  stop : Nat
  name : String
  score : Nat
deriving Repr, DecidableEq

/-- Python exceptions that the embedded code can raise. -/
inductive PyError where
  | nameError (n : String)
  | unboundLocalError (n : String)
  | indexError
  | keyError
  | typeError
  | fileNotFoundError (path : String)
  | runtimeError (msg : String)
deriving Repr, DecidableEq

/-- The `input_data` argument of `exportPseudoBulk`: either a `cisTopicObject`
or a cell-metadata `pd.DataFrame` (projected to index and the `variable`
column, in row order). The `Dict[str, pd.DataFrame]` variant of the type
annotation has no handling branch in the function body and is not modelled. -/
inductive InputData where
  | cisTopicObj
  | dataFrame (cell_data : List (String × String))
deriving Repr, DecidableEq

/-- Python `s.split('-')[-1]`: the last component after splitting on `-`,
i.e. the suffix of `s` after its last `-` (all of `s` when it has none). -/
def pySplitLast (s : String) : String :=
  String.mk ((s.data.reverse.takeWhile fun c => c != '-').reverse)

/-- The character set of the Python literal `"-1234567890"`. -/
def stripSet : List Char :=
  ['-', '1', '2', '3', '4', '5', '6', '7', '8', '9', '0']

/-- Python `s.rstrip(cs)`: remove all trailing characters of `s` drawn from
the set `cs`. -/
def pyRstrip (s : String) (cs : List Char) : String :=
  String.mk ((s.data.reverse.dropWhile fun c => cs.contains c).reverse)

/-- Line 89: `fragments_df.loc[:,'Name'] = [x.rstrip("-1234567890") for x in
fragments_df.loc[:,'Name']]`. -/
def barcodeCorrect (fragments_df : List Fragment) : List Fragment :=
  fragments_df.map fun f => { f with name := pyRstrip f.name stripSet }

/-- Line 91: `fragments_df.loc[:,'Name'] = fragments_df.loc[:,'Name'] + '-' +
sample_id`. -/
def tagSample (sample_id : String) (fragments_df : List Fragment) : List Fragment :=
  fragments_df.map fun f => { f with name := f.name ++ "-" ++ sample_id }

/-- Lines 87-91: barcode correction is applied exactly when the Name of the
first loaded record contains `-`, then the sample suffix is appended to every
Name. -/
def correctAndTag (sample_id : String) (first : Fragment)
    (fragments_df : List Fragment) : List Fragment :=
  tagSample sample_id
    (if first.name.contains '-' then barcodeCorrect fragments_df else fragments_df)

/-- Line 92: `fragments_df = fragments_df.loc[fragments_df['Name'].isin(
cell_data.index.tolist())]`. -/
def filterToCells (cell_data : List (String × String))
    (fragments_df : List Fragment) : List Fragment :=
  fragments_df.filter fun f => (cell_data.map Prod.fst).contains f.name

/-- Insert a string into a sorted list, keeping it sorted. -/
def insertSorted (a : String) : List String → List String
  | [] => [a]
  | b :: l => if a ≤ b then a :: b :: l else b :: insertSorted a l

/-- Python `sorted` on a list of strings (insertion sort; only the multiset of
elements and sortedness matter for the claims). -/
def sortStrings (l : List String) : List String :=
  l.foldr insertSorted []

/-- Line 105: `groups = sorted(list(set(group_var)))` — the sorted distinct
values of the grouping column. -/
def groupsOf (cell_data : List (String × String)) : List String :=
  sortStrings (cell_data.map Prod.snd).dedup

/-- Result of one `exportPseudoBulk_ray` task: the group label, the two file
paths it creates, and the fragment records written to both files. -/
structure GroupResult where
  group : String
  bigwigPathGroup : String
  bedPathGroup : String
  groupFragments : List Fragment
deriving Repr, DecidableEq

/-- Lines 174-188 (`exportPseudoBulk_ray`): select the barcodes annotated with
`group`, keep the fragments whose Name is among them, and write them as
`bigwig_path + group + '.bw'` and `bed_path + group + '.bed.gz'`. -/
def exportPseudoBulk_ray (group_var : List (String × String)) (group : String)
    (fragments_df : List Fragment) (bigwig_path bed_path : String) : GroupResult :=
  let barcodes := (group_var.filter fun q => q.2 == group).map Prod.fst
  let group_fragments := fragments_df.filter fun f => barcodes.contains f.name
  { group := group
    bigwigPathGroup := bigwig_path ++ group ++ ".bw"
    bedPathGroup := bed_path ++ group ++ ".bed.gz"
    groupFragments := group_fragments }

/-- Observable outcome of a call to `exportPseudoBulk`: the log messages
emitted by the driver, the fragment files read (`pr.read_bed` calls, in
order), the per-group files written by the ray workers, and the returned value
`(bw_paths, bed_paths)` or the exception that escaped. -/
structure ExportOutcome where
  logs : List String
  readPaths : List String
  writes : List GroupResult
  result : Except PyError (List (String × String) × List (String × String))
deriving Repr, DecidableEq

/-- The `log.error` messages emitted by the loop in lines 81-84: one per
`path_to_fragments` key whose sample id is not among the cell suffixes. -/
def mismatchLogs (cell_suffixes : List String)
    (ptf : List (String × String)) : List String :=
  ptf.filterMap fun q =>
    if cell_suffixes.contains q.1 then none
    else some "Check that your cell suffixes match with the keys in your path_to_fragments dictionary"

/-- The log messages of the barcode-correction branch (lines 87-90). -/
def correctionLogs (first : Fragment) : List String :=
  if first.name.contains '-' then ["Barcode correction", "Barcode correction completed"]
  else []

/-- Lines 104-128: compute the groups, run one ray task per group, and
assemble the two returned dictionaries (first bigwig paths, then bed paths,
matching `return bw_paths, bed_paths`). -/
def finishExport (cell_data : List (String × String))
    (fragments_df : List Fragment) (bed_path bigwig_path : String)
    (logs readPaths : List String) : ExportOutcome :=
  let groups := groupsOf cell_data
  let paths := groups.map fun group =>
    exportPseudoBulk_ray cell_data group fragments_df bigwig_path bed_path
  { logs := logs
    readPaths := readPaths
    writes := paths
    result := .ok (paths.map fun r => (r.group, r.bigwigPathGroup),
                   paths.map fun r => (r.group, r.bedPathGroup)) }

/-- Modelled from the spec: the module star-imports `cisTopicClass`, whose
source is not available. The spec names only the class `cisTopicObject`, so
the import is modelled as binding no module-level name `cisTopic_obj`; the
attribute access `cisTopic_obj.path_to_fragments` on line 66 therefore raises
`NameError` immediately. -/
def cisTopicObjBranch : Except PyError Unit :=
  .error (.nameError "cisTopic_obj")

/-- Lines 57-128 (`exportPseudoBulk`). Control flow follows the source:

* a `cisTopicObject` input hits the undefined name `cisTopic_obj` on line 66;
* a `pd.DataFrame` input with `path_to_fragments = None` only logs an error
  (line 75) and goes on; since `path_to_fragments` is then not a dict and the
  input is not a `cisTopicObject`, `fragments_df` is never assigned and the
  ray dispatch on line 117 raises `UnboundLocalError`;
* a dict `path_to_fragments`: the `for` loop body (lines 82-84) only checks
  sample ids against the cell suffixes; the statements from line 85 on sit at
  the loop's own indentation level, so they run once after the loop with
  `sample_id` bound to the LAST dict key (an empty dict leaves it unbound);
  only that one file is read. With more than one sample, the comprehension on
  line 95 indexes `list(fragments_df_dict.keys())[x]` for `x` up to
  `len(path_to_fragments) - 1` while the dict holds a single entry, raising
  `IndexError`;
* `fragments_df.loc[:,'Name'][0]` on line 87 raises a lookup error when the
  loaded frame is empty. -/
def exportPseudoBulk (input_data : InputData)
    (path_to_fragments : Option (List (String × String)))
    (read_bed : String → List Fragment)
    (bed_path bigwig_path : String) : ExportOutcome :=
  match input_data with
  | .cisTopicObj => { logs := [], readPaths := [], writes := [],
                      result := .error (.nameError "cisTopic_obj") }
  | .dataFrame cell_data =>
    let logs0 : List String :=
      match path_to_fragments with
      | none => ["Please, provide path_to_fragments."]
      | some _ => []
    let cell_suffixes := ((cell_data.map fun q => pySplitLast q.1)).dedup
    match path_to_fragments with
    | none =>
      { logs := logs0, readPaths := [], writes := [],
        result := .error (.unboundLocalError "fragments_df") }
    | some ptf =>
      let logs1 := logs0 ++ mismatchLogs cell_suffixes ptf
      match ptf.getLast? with
      | none =>
        { logs := logs1, readPaths := [], writes := [],
          result := .error (.unboundLocalError "sample_id") }
      | some (sample_id, path) =>
        let logs2 := logs1 ++ ["Reading fragments from " ++ path]
        let fragments_df := read_bed path
        match fragments_df.head? with
        | none =>
          { logs := logs2, readPaths := [path], writes := [],
            result := .error .keyError }
        | some first =>
          let logs3 := logs2 ++ correctionLogs first
          let filtered := filterToCells cell_data
            (correctAndTag sample_id first fragments_df)
          if ptf.length > 1 then
            { logs := logs3, readPaths := [path], writes := [],
              result := .error .indexError }
          else
            finishExport cell_data filtered bed_path bigwig_path logs3 [path]

/-- Concrete two-sample cell metadata used to evaluate the multi-sample path. -/
def twoSampleCellData : List (String × String) :=
  [("AAA-S1", "T1"), ("BBB-S2", "T1")]

/-- Concrete two-sample fragment files used to evaluate the multi-sample path. -/
def twoSampleReadBed : String → List Fragment := fun p =>
  if p = "S1.bed" then [⟨"chr1", 0, 10, "AAA", 1⟩]
  else if p = "S2.bed" then [⟨"chr1", 5, 15, "BBB", 1⟩]
  else []

/-- C3: with two samples in `path_to_fragments`, `exportPseudoBulk` reads only
the last sample's fragments file and then raises `IndexError` in the merge
comprehension (line 95), instead of loading and merging every sample. -/
theorem exportPseudoBulk_two_samples_reads_last_then_indexError :
    (exportPseudoBulk (.dataFrame twoSampleCellData)
        (some [("S1", "S1.bed"), ("S2", "S2.bed")])
        twoSampleReadBed "bed/" "bw/").readPaths = ["S2.bed"] ∧
    (exportPseudoBulk (.dataFrame twoSampleCellData)
        (some [("S1", "S1.bed"), ("S2", "S2.bed")])
        twoSampleReadBed "bed/" "bw/").result = .error .indexError := by
  constructor <;> rfl

/-- C8: for every `cisTopicObject` input, `exportPseudoBulk` stops at once
with the `NameError` for the undefined name `cisTopic_obj`: no fragments file
is read, no file is written, and no log is emitted first. -/
theorem exportPseudoBulk_cisTopicObject_nameError
    (path_to_fragments : Option (List (String × String)))
    (read_bed : String → List Fragment) (bed_path bigwig_path : String) :
    exportPseudoBulk .cisTopicObj path_to_fragments read_bed bed_path bigwig_path =
      { logs := [], readPaths := [], writes := [],
        result := .error (.nameError "cisTopic_obj") } := rfl

theorem insertSorted_perm (a : String) (l : List String) :
    List.Perm (insertSorted a l) (a :: l) := by
  induction l with
  | nil => exact List.Perm.refl _
  | cons b l ih =>
    simp only [insertSorted]
    split
    · exact List.Perm.refl _
    · exact (List.Perm.cons b ih).trans (List.Perm.swap a b l)

theorem sortStrings_perm (l : List String) : List.Perm (sortStrings l) l := by
  induction l with
  | nil => exact List.Perm.refl _
  | cons a l ih =>
    exact (insertSorted_perm a (sortStrings l)).trans (List.Perm.cons a ih)

theorem groupsOf_nodup (cell_data : List (String × String)) :
    (groupsOf cell_data).Nodup :=
  ((sortStrings_perm _).nodup_iff).mpr (List.nodup_dedup _)

theorem mem_groupsOf (cell_data : List (String × String)) (g : String) :
    g ∈ groupsOf cell_data ↔ g ∈ cell_data.map Prod.snd := by
  rw [groupsOf, (sortStrings_perm _).mem_iff, List.mem_dedup]

theorem exportPseudoBulk_ray_group (gv : List (String × String)) (g : String)
    (fr : List Fragment) (bwp bedp : String) :
    (exportPseudoBulk_ray gv g fr bwp bedp).group = g := rfl

theorem exportPseudoBulk_ray_bigwig (gv : List (String × String)) (g : String)
    (fr : List Fragment) (bwp bedp : String) :
    (exportPseudoBulk_ray gv g fr bwp bedp).bigwigPathGroup = bwp ++ g ++ ".bw" := rfl

theorem exportPseudoBulk_ray_bed (gv : List (String × String)) (g : String)
    (fr : List Fragment) (bwp bedp : String) :
    (exportPseudoBulk_ray gv g fr bwp bedp).bedPathGroup = bedp ++ g ++ ".bed.gz" := rfl

theorem exportPseudoBulk_ray_fragments (gv : List (String × String)) (g : String)
    (fr : List Fragment) (bwp bedp : String) :
    (exportPseudoBulk_ray gv g fr bwp bedp).groupFragments =
      fr.filter fun f =>
        ((gv.filter fun q => q.2 == g).map Prod.fst).contains f.name := rfl

/-- Unfolding lemma: on a `pd.DataFrame` input with a one-entry
`path_to_fragments` dict and a nonempty fragments file, `exportPseudoBulk`
reaches lines 104-128 with the corrected, tagged and cell-filtered records. -/
theorem exportPseudoBulk_single (cd : List (String × String)) (sid p : String)
    (rb : String → List Fragment) (bedp bwp : String)
    (first : Fragment) (rest : List Fragment) (hread : rb p = first :: rest) :
    exportPseudoBulk (.dataFrame cd) (some [(sid, p)]) rb bedp bwp =
      finishExport cd (filterToCells cd (correctAndTag sid first (rb p)))
        bedp bwp
        ((mismatchLogs ((cd.map fun q => pySplitLast q.1)).dedup [(sid, p)] ++
          ["Reading fragments from " ++ p]) ++ correctionLogs first) [p] := by
  have h1 : ([(sid, p)] : List (String × String)).getLast? = some (sid, p) := rfl
  simp only [exportPseudoBulk, h1, hread]
  rfl

/-- The composition of the allow-list filter (line 92) and the per-group
barcode filter (lines 175-176) keeps exactly the records that match some
metadata row carrying the group's annotation. -/
theorem filterToCells_group_filter (cd : List (String × String)) (g : String)
    (l : List Fragment) :
    (filterToCells cd l).filter
        (fun f => ((cd.filter fun q => q.2 == g).map Prod.fst).contains f.name) =
      l.filter fun f => cd.any fun q => q.1 == f.name && q.2 == g := by
  rw [filterToCells, List.filter_filter]
  apply List.filter_congr
  intro f _
  rw [Bool.eq_iff_iff]
  simp only [List.contains, List.elem_eq_mem, decide_eq_true_eq, Bool.and_eq_true,
    List.mem_map, List.mem_filter, List.any_eq_true, beq_iff_eq]
  aesop

/-- C2: for every distinct value `g` of the grouping column, the call
produces exactly one bed file `bed_path ++ g ++ ".bed.gz"` and exactly one
bigwig file `bigwig_path ++ g ++ ".bw"` — the returned dictionaries have one
entry per group, with no duplicates and no entries for other labels. -/
theorem exportPseudoBulk_one_pair_per_group (cd : List (String × String))
    (sid p : String) (rb : String → List Fragment) (bedp bwp : String)
    (first : Fragment) (rest : List Fragment) (hread : rb p = first :: rest) :
    ∃ bw bed,
      (exportPseudoBulk (.dataFrame cd) (some [(sid, p)]) rb bedp bwp).result =
        .ok (bw, bed) ∧
      bw.map Prod.fst = groupsOf cd ∧
      bed.map Prod.fst = groupsOf cd ∧
      (groupsOf cd).Nodup ∧
      (∀ g, g ∈ groupsOf cd ↔ g ∈ cd.map Prod.snd) ∧
      (∀ g q, (g, q) ∈ bw → q = bwp ++ g ++ ".bw") ∧
      (∀ g q, (g, q) ∈ bed → q = bedp ++ g ++ ".bed.gz") := by
  rw [exportPseudoBulk_single cd sid p rb bedp bwp first rest hread]
  refine ⟨_, _, rfl, ?_, ?_, groupsOf_nodup cd, fun g => mem_groupsOf cd g, ?_, ?_⟩
  · simp [finishExport, List.map_map, Function.comp_def, exportPseudoBulk_ray_group]
  · simp [finishExport, List.map_map, Function.comp_def, exportPseudoBulk_ray_group]
  · simp only [finishExport, List.map_map, List.mem_map, Function.comp_def,
      exportPseudoBulk_ray_group, exportPseudoBulk_ray_bigwig, Prod.mk.injEq]
    rintro g q ⟨g', -, rfl, rfl⟩
    rfl
  · simp only [finishExport, List.map_map, List.mem_map, Function.comp_def,
      exportPseudoBulk_ray_group, exportPseudoBulk_ray_bed, Prod.mk.injEq]
    rintro g q ⟨g', -, rfl, rfl⟩
    rfl

/-- C7: the two dictionaries returned by `exportPseudoBulk` are keyed by group
label; the first maps each group to the bigwig file created for it by its ray
task and the second maps each group to the bed fragments file created for it
(matching `return bw_paths, bed_paths`). -/
theorem exportPseudoBulk_return_dicts (cd : List (String × String))
    (sid p : String) (rb : String → List Fragment) (bedp bwp : String)
    (first : Fragment) (rest : List Fragment) (hread : rb p = first :: rest) :
    ∃ bw bed,
      (exportPseudoBulk (.dataFrame cd) (some [(sid, p)]) rb bedp bwp).result =
        .ok (bw, bed) ∧
      bw = (exportPseudoBulk (.dataFrame cd) (some [(sid, p)]) rb bedp bwp).writes.map
        (fun r => (r.group, r.bigwigPathGroup)) ∧
      bed = (exportPseudoBulk (.dataFrame cd) (some [(sid, p)]) rb bedp bwp).writes.map
        (fun r => (r.group, r.bedPathGroup)) ∧
      (exportPseudoBulk (.dataFrame cd) (some [(sid, p)]) rb bedp bwp).writes.map
        GroupResult.group = groupsOf cd := by
  rw [exportPseudoBulk_single cd sid p rb bedp bwp first rest hread]
  refine ⟨_, _, rfl, rfl, rfl, ?_⟩
  simp [finishExport, List.map_map, Function.comp_def, exportPseudoBulk_ray_group]

/-- C4: every group's written records are exactly the loaded (corrected and
sample-suffixed) records whose Name matches a metadata row of that group —
i.e. the Name is on the barcode allow-list (the metadata index) with
annotation equal to the group — and a record whose Name is absent from the
index appears in no group's output. -/
theorem exportPseudoBulk_group_records (cd : List (String × String))
    (sid p : String) (rb : String → List Fragment) (bedp bwp : String)
    (first : Fragment) (rest : List Fragment) (hread : rb p = first :: rest) :
    (∀ r ∈ (exportPseudoBulk (.dataFrame cd) (some [(sid, p)]) rb bedp bwp).writes,
      r.groupFragments = (correctAndTag sid first (rb p)).filter
        (fun f => cd.any fun q => q.1 == f.name && q.2 == r.group)) ∧
    (∀ f ∈ correctAndTag sid first (rb p), (∀ q ∈ cd, q.1 ≠ f.name) →
      ∀ r ∈ (exportPseudoBulk (.dataFrame cd) (some [(sid, p)]) rb bedp bwp).writes,
        f ∉ r.groupFragments) := by
  rw [exportPseudoBulk_single cd sid p rb bedp bwp first rest hread]
  have hmem : ∀ r ∈ (finishExport cd
      (filterToCells cd (correctAndTag sid first (rb p))) bedp bwp
      ((mismatchLogs ((cd.map fun q => pySplitLast q.1)).dedup [(sid, p)] ++
        ["Reading fragments from " ++ p]) ++ correctionLogs first) [p]).writes,
      r.groupFragments = (correctAndTag sid first (rb p)).filter
        (fun f => cd.any fun q => q.1 == f.name && q.2 == r.group) := by
    intro r hr
    simp only [finishExport, List.mem_map] at hr
    obtain ⟨g, -, rfl⟩ := hr
    rw [exportPseudoBulk_ray_fragments, exportPseudoBulk_ray_group,
      filterToCells_group_filter]
  refine ⟨hmem, ?_⟩
  intro f hf hidx r hr hcontra
  rw [hmem r hr] at hcontra
  simp only [List.mem_filter, List.any_eq_true, Bool.and_eq_true, beq_iff_eq] at hcontra
  obtain ⟨-, q, hq, hname, -⟩ := hcontra
  exact hidx q hq hname

/-- C10: the loaded Names are rewritten exactly when the first record's Name
contains a `-`: in that case every Name is stripped of all trailing
characters from the set `-1234567890` (Python `rstrip`, not a single
`-digits` suffix) before the `-sample_id` suffix is appended, and otherwise
every Name gets the suffix unchanged; the records then flow, cell-filtered,
into the per-group outputs. -/
theorem exportPseudoBulk_barcode_correction (cd : List (String × String))
    (sid p : String) (rb : String → List Fragment) (bedp bwp : String)
    (first : Fragment) (rest : List Fragment) (hread : rb p = first :: rest) :
    exportPseudoBulk (.dataFrame cd) (some [(sid, p)]) rb bedp bwp =
      finishExport cd (filterToCells cd (correctAndTag sid first (rb p)))
        bedp bwp
        ((mismatchLogs ((cd.map fun q => pySplitLast q.1)).dedup [(sid, p)] ++
          ["Reading fragments from " ++ p]) ++ correctionLogs first) [p] ∧
    (first.name.contains '-' = true →
      (correctAndTag sid first (rb p)).map Fragment.name =
        (rb p).map fun f => pyRstrip f.name stripSet ++ "-" ++ sid) ∧
    (first.name.contains '-' = false →
      (correctAndTag sid first (rb p)).map Fragment.name =
        (rb p).map fun f => f.name ++ "-" ++ sid) := by
  refine ⟨exportPseudoBulk_single cd sid p rb bedp bwp first rest hread, ?_, ?_⟩
  · intro h
    simp [correctAndTag, h, tagSample, barcodeCorrect, List.map_map, Function.comp_def]
  · intro h
    simp [correctAndTag, h, tagSample, List.map_map, Function.comp_def]

/-- C9: (a) with a `pd.DataFrame` input and `path_to_fragments = None`, only
the error message is logged at the check on line 75 and execution continues —
no exception is raised there and there is no early return; the failure that
eventually escapes is the later `UnboundLocalError` for `fragments_df` at the
ray dispatch (line 117). (b) with a dict key that is not among the barcode
index suffixes, the check on lines 83-84 only logs the mismatch message and
the call still completes normally. -/
theorem exportPseudoBulk_detection_only_logs :
    (∀ (cd : List (String × String)) (rb : String → List Fragment)
       (bedp bwp : String),
      exportPseudoBulk (.dataFrame cd) none rb bedp bwp =
        { logs := ["Please, provide path_to_fragments."], readPaths := [],
          writes := [],
          result := .error (.unboundLocalError "fragments_df") }) ∧
    (∀ (cd : List (String × String)) (sid p : String)
       (rb : String → List Fragment) (bedp bwp : String)
       (first : Fragment) (rest : List Fragment),
      rb p = first :: rest →
      (∀ q ∈ cd, pySplitLast q.1 ≠ sid) →
      "Check that your cell suffixes match with the keys in your path_to_fragments dictionary"
        ∈ (exportPseudoBulk (.dataFrame cd) (some [(sid, p)]) rb bedp bwp).logs ∧
      ∃ pair, (exportPseudoBulk (.dataFrame cd) (some [(sid, p)]) rb bedp bwp).result =
        .ok pair) := by
  refine ⟨fun cd rb bedp bwp => rfl, ?_⟩
  intro cd sid p rb bedp bwp first rest hread hmiss
  rw [exportPseudoBulk_single cd sid p rb bedp bwp first rest hread]
  have hcont : (((cd.map fun q => pySplitLast q.1)).dedup).contains sid = false := by
    simp only [List.contains, List.elem_eq_mem, decide_eq_false_iff_not,
      List.mem_dedup, List.mem_map]
    rintro ⟨q, hq, hEq⟩
    exact hmiss q hq hEq
  constructor
  · simp only [finishExport, mismatchLogs, hcont, Bool.false_eq_true, if_false,
      List.filterMap_cons, List.filterMap_nil, List.mem_append, List.mem_singleton]
    exact Or.inl (Or.inl trivial)
  · exact ⟨_, rfl⟩

/-- Concrete fixtures for the witnesses. -/
def cdW : List (String × String) := [("AAA-S1", "T2"), ("CCC-S1", "T1")]

def fragW1 : Fragment := ⟨"chr1", 0, 10, "AAA", 5⟩

def fragW2 : Fragment := ⟨"chr1", 3, 8, "CCC", 2⟩

def rbW : String → List Fragment := fun _ => [fragW1, fragW2]

def cdD : List (String × String) := [("AAA-S1", "T1")]

def fragD : Fragment := ⟨"chr1", 0, 10, "AAA-1-12", 5⟩

def rbD : String → List Fragment := fun _ => [fragD]

theorem exportPseudoBulk_one_pair_per_group_witness :
    rbW "f.bed" = fragW1 :: [fragW2] ∧
    ∃ bw bed,
      (exportPseudoBulk (.dataFrame cdW) (some [("S1", "f.bed")]) rbW
        "bed/" "bw/").result = .ok (bw, bed) ∧
      bw.map Prod.fst = groupsOf cdW ∧
      bed.map Prod.fst = groupsOf cdW ∧
      (groupsOf cdW).Nodup ∧
      (∀ g, g ∈ groupsOf cdW ↔ g ∈ cdW.map Prod.snd) ∧
      (∀ g q, (g, q) ∈ bw → q = "bw/" ++ g ++ ".bw") ∧
      (∀ g q, (g, q) ∈ bed → q = "bed/" ++ g ++ ".bed.gz") :=
  ⟨rfl, exportPseudoBulk_one_pair_per_group cdW "S1" "f.bed" rbW "bed/" "bw/"
    fragW1 [fragW2] rfl⟩

theorem exportPseudoBulk_group_records_witness :
    rbW "f.bed" = fragW1 :: [fragW2] ∧
    ((∀ r ∈ (exportPseudoBulk (.dataFrame cdW) (some [("S1", "f.bed")]) rbW
        "bed/" "bw/").writes,
      r.groupFragments = (correctAndTag "S1" fragW1 (rbW "f.bed")).filter
        (fun f => cdW.any fun q => q.1 == f.name && q.2 == r.group)) ∧
    (∀ f ∈ correctAndTag "S1" fragW1 (rbW "f.bed"), (∀ q ∈ cdW, q.1 ≠ f.name) →
      ∀ r ∈ (exportPseudoBulk (.dataFrame cdW) (some [("S1", "f.bed")]) rbW
        "bed/" "bw/").writes,
        f ∉ r.groupFragments)) :=
  ⟨rfl, exportPseudoBulk_group_records cdW "S1" "f.bed" rbW "bed/" "bw/"
    fragW1 [fragW2] rfl⟩

theorem exportPseudoBulk_return_dicts_witness :
    rbW "f.bed" = fragW1 :: [fragW2] ∧
    ∃ bw bed,
      (exportPseudoBulk (.dataFrame cdW) (some [("S1", "f.bed")]) rbW
        "bed/" "bw/").result = .ok (bw, bed) ∧
      bw = (exportPseudoBulk (.dataFrame cdW) (some [("S1", "f.bed")]) rbW
        "bed/" "bw/").writes.map (fun r => (r.group, r.bigwigPathGroup)) ∧
      bed = (exportPseudoBulk (.dataFrame cdW) (some [("S1", "f.bed")]) rbW
        "bed/" "bw/").writes.map (fun r => (r.group, r.bedPathGroup)) ∧
      (exportPseudoBulk (.dataFrame cdW) (some [("S1", "f.bed")]) rbW
        "bed/" "bw/").writes.map GroupResult.group = groupsOf cdW :=
  ⟨rfl, exportPseudoBulk_return_dicts cdW "S1" "f.bed" rbW "bed/" "bw/"
    fragW1 [fragW2] rfl⟩

theorem exportPseudoBulk_barcode_correction_witness :
    rbD "f.bed" = fragD :: [] ∧
    (exportPseudoBulk (.dataFrame cdD) (some [("S1", "f.bed")]) rbD "bed/" "bw/" =
      finishExport cdD (filterToCells cdD (correctAndTag "S1" fragD (rbD "f.bed")))
        "bed/" "bw/"
        ((mismatchLogs ((cdD.map fun q => pySplitLast q.1)).dedup [("S1", "f.bed")] ++
          ["Reading fragments from " ++ "f.bed"]) ++ correctionLogs fragD) ["f.bed"] ∧
    (fragD.name.contains '-' = true →
      (correctAndTag "S1" fragD (rbD "f.bed")).map Fragment.name =
        (rbD "f.bed").map fun f => pyRstrip f.name stripSet ++ "-" ++ "S1") ∧
    (fragD.name.contains '-' = false →
      (correctAndTag "S1" fragD (rbD "f.bed")).map Fragment.name =
        (rbD "f.bed").map fun f => f.name ++ "-" ++ "S1")) :=
  ⟨rfl, exportPseudoBulk_barcode_correction cdD "S1" "f.bed" rbD "bed/" "bw/"
    fragD [] rfl⟩

theorem exportPseudoBulk_detection_only_logs_witness :
    (exportPseudoBulk (.dataFrame cdW) none rbW "bed/" "bw/" =
      { logs := ["Please, provide path_to_fragments."], readPaths := [],
        writes := [],
        result := .error (.unboundLocalError "fragments_df") }) ∧
    rbW "f.bed" = fragW1 :: [fragW2] ∧
    (∀ q ∈ cdD, pySplitLast q.1 ≠ "S2") ∧
    ("Check that your cell suffixes match with the keys in your path_to_fragments dictionary"
      ∈ (exportPseudoBulk (.dataFrame cdD) (some [("S2", "f.bed")]) rbW
        "bed/" "bw/").logs ∧
    ∃ pair, (exportPseudoBulk (.dataFrame cdD) (some [("S2", "f.bed")]) rbW
        "bed/" "bw/").result = .ok pair) :=
  ⟨exportPseudoBulk_detection_only_logs.1 cdW rbW "bed/" "bw/", rfl, by decide,
    exportPseudoBulk_detection_only_logs.2 cdD "S2" "f.bed" rbW "bed/" "bw/"
      fragW1 [fragW2] rfl (by decide)⟩

/-- One row of a MACS2 narrowPeak file under the column names assigned on
line 388 (`pd.read_csv` is abstracted to already-tokenized rows). -/
structure NarrowPeakRow where
  chromosome : String
  start : Nat
  stop : Nat
  name : String
  score : Nat
  strand : String
  fc_summit : String
  log10_pval : String
  log10_qval : String
  summit : Nat
deriving Repr, DecidableEq

/-- Python `%`-formatting restricted to the `%s` conversion (the only one the
source template uses) and the `%%` escape: each `%s` consumes one argument in
order; `none` models the exception Python raises on an argument-count
mismatch, a trailing `%`, or an unsupported conversion. -/
def pyFormatAux : List Char → List String → Option (List Char)
  | [], [] => some []
  | [], _ :: _ => none
  | [c], args =>
    if c = '%' then none
    else (pyFormatAux [] args).map (fun l => c :: l)
  | c :: d :: rest, args =>
    if c = '%' then
      if d = 's' then
        match args with
        | a :: args' => (pyFormatAux rest args').map (fun l => a.data ++ l)
        | [] => none
      else if d = '%' then (pyFormatAux rest args).map (fun l => '%' :: l)
      else none
    else (pyFormatAux (d :: rest) args).map (fun l => c :: l)

/-- Python `template % args` for a tuple of strings. -/
def pyFormat (template : String) (args : List String) : Option String :=
  (pyFormatAux template.data args).map String.mk

/-- The `MACS_callPeak` object after `__init__` stores its parameters (lines
346-355). The numeric parameters are taken as their `str()` renderings, which
is how they enter the `%s`-formatted command. -/
structure MACS_callPeak where
  macs_path : String
  treatment : String
  name : String
  outdir : String
  format : String
  gsize : String
  shift : String
  ext_size : String
  keep_dup : String
  qvalue : String
deriving Repr, DecidableEq

/-- Lines 369-375: the command template (the two adjacent string literals
concatenate, leaving one space before `--qvalue` and two spaces after
`--name %s`), with `%`-formatting applied to the whole concatenation,
`self.macs_path` included. -/
def MACS_callPeak.cmd (m : MACS_callPeak) : Option String :=
  pyFormat (m.macs_path ++ " callpeak --treatment %s --name %s  --outdir %s --format %s --gsize %s --qvalue %s --nomodel --shift %s --extsize %s --keep-dup %s --call-summits --nolambda")
    [m.treatment, m.name, m.outdir, m.format, m.gsize, m.qvalue, m.shift,
     m.ext_size, m.keep_dup]

/-- Lines 383-390 (`load_narrow_peak`): read
`outdir + name + '_peaks.narrowPeak'`; a missing file raises. -/
def MACS_callPeak.load_narrow_peak (m : MACS_callPeak)
    (fs : String → Option (List NarrowPeakRow)) :
    Except PyError (List NarrowPeakRow) :=
  match fs (m.outdir ++ m.name ++ "_peaks.narrowPeak") with
  | none => .error (.fileNotFoundError (m.outdir ++ m.name ++ "_peaks.narrowPeak"))
  | some rows => .ok rows

/-- Lines 358-381 (`callpeak`): format the command, run it in the shell
(`run` maps a command string to the subprocess exit status), re-raise a
non-zero exit as `RuntimeError`, and on a zero exit load the narrowPeak file
into `self.narrow_peak`. The first component records the shell invocations
performed, in order; the captured subprocess output is not modelled, so the
`RuntimeError` message ends after the exit code. -/
def MACS_callPeak.callpeak (m : MACS_callPeak) (run : String → Nat)
    (fs : String → Option (List NarrowPeakRow)) :
    List String × Except PyError (List NarrowPeakRow) :=
  match m.cmd with
  | none => ([], .error .typeError)
  | some c =>
    ([c],
     if run c = 0 then m.load_narrow_peak fs
     else .error (.runtimeError
       ("command '" ++ c ++ "' return with error (code " ++ toString (run c) ++ ")")))

/-- Lines 251-304 (`MACS_callPeak_ray`): construct the `MACS_callPeak` object,
whose `__init__` immediately runs `callpeak`. -/
def MACS_callPeak_ray (macs_path bed_path name outdir genome_size
    input_format shift ext_size keep_dup q_value : String)
    (run : String → Nat) (fs : String → Option (List NarrowPeakRow)) :
    List String × Except PyError (List NarrowPeakRow) :=
  MACS_callPeak.callpeak
    { macs_path := macs_path, treatment := bed_path, name := name,
      outdir := outdir, format := input_format, gsize := genome_size,
      shift := shift, ext_size := ext_size, keep_dup := keep_dup,
      qvalue := q_value } run fs

/-- Model of `ray.get` on the list of task results: every task runs, and the
first failure is re-raised. -/
def rayGet : List (Except PyError (List NarrowPeakRow)) →
    Except PyError (List (List NarrowPeakRow))
  | [] => .ok []
  | .error e :: _ => .error e
  | .ok a :: xs => (rayGet xs).map (a :: ·)

/-- Lines 234-247 (`peakCalling`): one `MACS_callPeak_ray` task per entry of
`bed_paths` (keys in dict order), `ray.get`, then the dictionary
`{list(bed_paths.keys())[i]: narrow_peaks[i].narrow_peak}`. The first
component collects the shell invocations of all tasks. -/
def peakCalling (macs_path : String) (bed_paths : List (String × String))
    (outdir genome_size input_format shift ext_size keep_dup q_value : String)
    (run : String → Nat) (fs : String → Option (List NarrowPeakRow)) :
    List String × Except PyError (List (String × List NarrowPeakRow)) :=
  let tasks := bed_paths.map fun q =>
    MACS_callPeak_ray macs_path q.2 q.1 outdir genome_size input_format
      shift ext_size keep_dup q_value run fs
  ((tasks.map Prod.fst).flatten,
   (rayGet (tasks.map Prod.snd)).map fun res => (bed_paths.map Prod.fst).zip res)

/-- The command string C5 claims for one group: `macs_path` followed by the
formatted option string, stated by the spec's words for comparison with
`MACS_callPeak.cmd`. -/
def specCommandString (macs_path bed_path name outdir input_format
    genome_size q_value shift ext_size keep_dup : String) : String :=
  macs_path ++
    (" callpeak --treatment " ++ bed_path ++ " --name " ++ name ++
      "  --outdir " ++ outdir ++ " --format " ++ input_format ++ " --gsize " ++
      genome_size ++ " --qvalue " ++ q_value ++ " --nomodel --shift " ++ shift ++
      " --extsize " ++ ext_size ++ " --keep-dup " ++ keep_dup ++
      " --call-summits --nolambda")

theorem pyFormatAux_cons_ne (c : Char) (h : ¬ c = '%') (rest : List Char)
    (args : List String) :
    pyFormatAux (c :: rest) args = (pyFormatAux rest args).map (fun l => c :: l) := by
  cases rest with
  | nil => simp only [pyFormatAux, if_neg h]
  | cons d rest => simp only [pyFormatAux, if_neg h]

theorem pyFormatAux_append_no_pct (s : List Char) (h : ∀ c ∈ s, c ≠ '%')
    (rest : List Char) (args : List String) :
    pyFormatAux (s ++ rest) args = (pyFormatAux rest args).map (fun l => s ++ l) := by
  induction s with
  | nil =>
    simp only [List.nil_append]
    cases hres : pyFormatAux rest args <;> simp [hres]
  | cons c s ih =>
    rw [List.cons_append,
      pyFormatAux_cons_ne c (h c (List.mem_cons_self c s)) (s ++ rest) args,
      ih fun d hd => h d (List.mem_cons_of_mem c hd)]
    cases pyFormatAux rest args <;> rfl

/-- The ten `%`-free pieces of the source template, in order. -/
def tmplPieces : List String :=
  [" callpeak --treatment ", " --name ", "  --outdir ", " --format ",
   " --gsize ", " --qvalue ", " --nomodel --shift ", " --extsize ",
   " --keep-dup ", " --call-summits --nolambda"]

/-- Interleave literal pieces with `%s` placeholders. -/
def tmpl : List String → List Char
  | [] => []
  | [p] => p.data
  | p :: p' :: ps => p.data ++ '%' :: 's' :: tmpl (p' :: ps)

/-- Interleave literal pieces with argument values. -/
def fill : List String → List String → List Char
  | [], _ => []
  | [p], _ => p.data
  | _ :: _ :: _, [] => []
  | p :: p' :: ps, a :: args => p.data ++ (a.data ++ fill (p' :: ps) args)

theorem pyFormatAux_pct_s (rest : List Char) (a : String) (args : List String) :
    pyFormatAux ('%' :: 's' :: rest) (a :: args) =
      (pyFormatAux rest args).map (fun l => a.data ++ l) := by
  rw [pyFormatAux]
  simp

theorem pyFormatAux_tmpl (pieces : List String) :
    ∀ args : List String,
      (∀ p ∈ pieces, ∀ c ∈ p.data, c ≠ '%') →
      args.length + 1 = pieces.length →
      pyFormatAux (tmpl pieces) args = some (fill pieces args) := by
  induction pieces with
  | nil => intro args hp hlen; simp at hlen
  | cons p ps ih =>
    intro args hp hlen
    cases ps with
    | nil =>
      cases args with
      | cons a args => simp at hlen
      | nil =>
        have h := pyFormatAux_append_no_pct p.data
          (hp p (List.mem_cons_self p [])) [] []
        rw [List.append_nil] at h
        rw [tmpl, fill, h]
        simp [pyFormatAux]
    | cons p' ps' =>
      cases args with
      | nil => simp at hlen
      | cons a args' =>
        rw [tmpl,
          pyFormatAux_append_no_pct p.data (hp p (List.mem_cons_self p _)) _ _,
          pyFormatAux_pct_s,
          ih args' (fun q hq => hp q (List.mem_cons_of_mem p hq))
            (by simpa using hlen),
          fill]
        rfl

theorem template_data_eq :
    (" callpeak --treatment %s --name %s  --outdir %s --format %s --gsize %s --qvalue %s --nomodel --shift %s --extsize %s --keep-dup %s --call-summits --nolambda").data
      = tmpl tmplPieces := by decide

/-- When `macs_path` contains no `%`, the formatted command is exactly the
string the spec claims. -/
theorem MACS_callPeak_cmd_eq (m : MACS_callPeak)
    (h : ∀ c ∈ m.macs_path.data, c ≠ '%') :
    m.cmd = some (specCommandString m.macs_path m.treatment m.name m.outdir
      m.format m.gsize m.qvalue m.shift m.ext_size m.keep_dup) := by
  have hfree : ∀ p ∈ tmplPieces, ∀ c ∈ p.data, c ≠ '%' := by decide
  have hlen9 : ([m.treatment, m.name, m.outdir, m.format, m.gsize, m.qvalue,
      m.shift, m.ext_size, m.keep_dup] : List String).length + 1 =
      tmplPieces.length := rfl
  rw [MACS_callPeak.cmd, pyFormat, String.data_append, template_data_eq,
    pyFormatAux_append_no_pct m.macs_path.data h,
    pyFormatAux_tmpl tmplPieces _ hfree hlen9]
  apply congrArg some
  apply String.ext
  simp [specCommandString, String.data_append, fill, tmplPieces, List.append_assoc]

theorem callpeak_invocations (m : MACS_callPeak) (run : String → Nat)
    (fs : String → Option (List NarrowPeakRow)) (c : String)
    (hc : m.cmd = some c) :
    (m.callpeak run fs).1 = [c] := by
  simp only [MACS_callPeak.callpeak, hc]

theorem flatten_of_singletons {α β : Type} (l : List α) (f : α → List β)
    (g : α → β) (h : ∀ x ∈ l, f x = [g x]) :
    (l.map f).flatten = l.map g := by
  induction l with
  | nil => rfl
  | cons x l ih =>
    simp only [List.map_cons, List.flatten_cons, h x (List.mem_cons_self x l),
      ih fun y hy => h y (List.mem_cons_of_mem x hy)]
    rfl

theorem rayGet_oks (l : List (String × String))
    (f : String × String → List NarrowPeakRow) :
    rayGet (l.map fun x => .ok (f x)) = .ok (l.map f) := by
  induction l with
  | nil => rfl
  | cons x l ih => simp [rayGet, ih, Except.map]

/-- C1: provided the formatted command exists and the narrowPeak output file
is present, `callpeak` raises `RuntimeError` exactly when the MACS2
subprocess exits with non-zero status; on a zero exit no exception is raised
and the parsed narrowPeak rows become `self.narrow_peak`. -/
theorem callpeak_runtimeError_iff (m : MACS_callPeak) (run : String → Nat)
    (fs : String → Option (List NarrowPeakRow)) (c : String)
    (rows : List NarrowPeakRow) (hc : m.cmd = some c)
    (hfs : fs (m.outdir ++ m.name ++ "_peaks.narrowPeak") = some rows) :
    ((∃ msg, (m.callpeak run fs).2 = .error (.runtimeError msg)) ↔ run c ≠ 0) ∧
    (run c = 0 → (m.callpeak run fs).2 = .ok rows) := by
  simp only [MACS_callPeak.callpeak, hc, MACS_callPeak.load_narrow_peak, hfs]
  by_cases h0 : run c = 0
  · simp [h0]
  · simp [h0]

/-- C5: `peakCalling` runs the external peak caller exactly once per group of
`bed_paths` — the shell-invocation list has one entry per group, in dict
order — and, when `macs_path` contains no `%` conversion character, the
command for group `name` with bed file `bp` is exactly `macs_path` followed
by
` callpeak --treatment bp --name name  --outdir ... --format ... --gsize ...
--qvalue ... --nomodel --shift ... --extsize ... --keep-dup ...
--call-summits --nolambda` (including the double space after `--name`). -/
theorem peakCalling_commands (macs_path : String)
    (bed_paths : List (String × String))
    (outdir genome_size input_format shift ext_size keep_dup q_value : String)
    (run : String → Nat) (fs : String → Option (List NarrowPeakRow))
    (h : ∀ c ∈ macs_path.data, c ≠ '%') :
    (peakCalling macs_path bed_paths outdir genome_size input_format shift
      ext_size keep_dup q_value run fs).1 =
      bed_paths.map fun q => specCommandString macs_path q.2 q.1 outdir
        input_format genome_size q_value shift ext_size keep_dup := by
  simp only [peakCalling, List.map_map]
  exact flatten_of_singletons bed_paths _ _ fun q hq =>
    callpeak_invocations _ run fs _ (MACS_callPeak_cmd_eq _ h)

/-- C6: when every subprocess exits 0 and every group's narrowPeak file is
present (`rows` giving each path's parsed content), `peakCalling` returns the
dictionary whose key list is exactly the key list of `bed_paths`, mapping the
i-th group label to the rows parsed from `outdir + name + '_peaks.narrowPeak'`
for that same group (positional correspondence preserved by the zip on line
246). -/
theorem peakCalling_returns_parsed (macs_path : String)
    (bed_paths : List (String × String))
    (outdir genome_size input_format shift ext_size keep_dup q_value : String)
    (run : String → Nat) (rows : String → List NarrowPeakRow)
    (h : ∀ c ∈ macs_path.data, c ≠ '%') (hrun : ∀ c, run c = 0) :
    (peakCalling macs_path bed_paths outdir genome_size input_format shift
      ext_size keep_dup q_value run fun path => some (rows path)).2 =
      .ok (bed_paths.map fun q =>
        (q.1, rows (outdir ++ q.1 ++ "_peaks.narrowPeak"))) := by
  have htask : ∀ q : String × String,
      (MACS_callPeak_ray macs_path q.2 q.1 outdir genome_size input_format
        shift ext_size keep_dup q_value run fun path => some (rows path)).2 =
      .ok (rows (outdir ++ q.1 ++ "_peaks.narrowPeak")) := by
    intro q
    have hc := MACS_callPeak_cmd_eq
      { macs_path := macs_path, treatment := q.2, name := q.1,
        outdir := outdir, format := input_format, gsize := genome_size,
        shift := shift, ext_size := ext_size, keep_dup := keep_dup,
        qvalue := q_value } h
    simp [MACS_callPeak_ray, MACS_callPeak.callpeak, hc, hrun,
      MACS_callPeak.load_narrow_peak]
  simp only [peakCalling, List.map_map]
  have hmap : (bed_paths.map fun q => (MACS_callPeak_ray macs_path q.2 q.1
      outdir genome_size input_format shift ext_size keep_dup q_value run
      fun path => some (rows path)).2) =
      bed_paths.map fun q => .ok (rows (outdir ++ q.1 ++ "_peaks.narrowPeak")) :=
    List.map_congr_left fun q _ => htask q
  rw [Function.comp_def, hmap, rayGet_oks bed_paths
    fun q => rows (outdir ++ q.1 ++ "_peaks.narrowPeak")]
  rw [Except.map, List.zip_map']

/-- Concrete fixtures for the MACS witnesses. -/
def mW : MACS_callPeak :=
  { macs_path := "macs2", treatment := "bed/T1.bed.gz", name := "T1",
    outdir := "out/", format := "BEDPE", gsize := "hs", shift := "73",
    ext_size := "146", keep_dup := "all", qvalue := "0.05" }

def cW : String :=
  specCommandString "macs2" "bed/T1.bed.gz" "T1" "out/" "BEDPE" "hs" "0.05"
    "73" "146" "all"

def rowW : NarrowPeakRow :=
  ⟨"chr1", 0, 100, "T1_peak_1", 30, ".", "5.0", "3.0", "2.0", 50⟩

def runW : String → Nat := fun _ => 0

def fsW : String → Option (List NarrowPeakRow) := fun _ => some [rowW]

def bed_pathsW : List (String × String) :=
  [("T1", "bed/T1.bed.gz"), ("T2", "bed/T2.bed.gz")]

theorem callpeak_runtimeError_iff_witness :
    mW.cmd = some cW ∧
    fsW (mW.outdir ++ mW.name ++ "_peaks.narrowPeak") = some [rowW] ∧
    ((∃ msg, (mW.callpeak runW fsW).2 = .error (.runtimeError msg)) ↔
      runW cW ≠ 0) ∧
    (runW cW = 0 → (mW.callpeak runW fsW).2 = .ok [rowW]) :=
  ⟨MACS_callPeak_cmd_eq mW (by decide), rfl,
   (callpeak_runtimeError_iff mW runW fsW cW [rowW]
     (MACS_callPeak_cmd_eq mW (by decide)) rfl).1,
   (callpeak_runtimeError_iff mW runW fsW cW [rowW]
     (MACS_callPeak_cmd_eq mW (by decide)) rfl).2⟩

theorem peakCalling_commands_witness :
    (∀ c ∈ ("macs2" : String).data, c ≠ '%') ∧
    (peakCalling "macs2" bed_pathsW "out/" "hs" "BEDPE" "73" "146" "all"
      "0.05" runW fsW).1 =
      bed_pathsW.map fun q => specCommandString "macs2" q.2 q.1 "out/" "BEDPE"
        "hs" "0.05" "73" "146" "all" :=
  ⟨by decide, peakCalling_commands "macs2" bed_pathsW "out/" "hs" "BEDPE" "73"
    "146" "all" "0.05" runW fsW (by decide)⟩

theorem peakCalling_returns_parsed_witness :
    (∀ c ∈ ("macs2" : String).data, c ≠ '%') ∧ (∀ c, runW c = 0) ∧
    (peakCalling "macs2" bed_pathsW "out/" "hs" "BEDPE" "73" "146" "all"
      "0.05" runW fun _ => some [rowW]).2 =
      .ok (bed_pathsW.map fun q => (q.1, [rowW])) :=
  ⟨by decide, fun c => rfl,
   peakCalling_returns_parsed "macs2" bed_pathsW "out/" "hs" "BEDPE" "73"
     "146" "all" "0.05" runW (fun _ => [rowW]) (by decide) fun c => rfl⟩

end PycisTopic
